import Mathlib

/-!
Shallow embedding of the stock-analysis service
(`src/services/stock_analysis.py`, class `StockAnalysisService`) and proofs
about its normalization, indicator, scoring and recommendation logic.

Modelling conventions:
* Python floats are modelled as `ℚ`; the IEEE sentinel values `NaN`/`±inf`
  that the pandas pipeline can produce (RSI via `0/0`, volume ratio via
  `x/0`) are modelled by the inductive type `FVal` whose comparison
  operators mirror IEEE semantics (`NaN` compares false to everything).
* A pandas `DataFrame` is a `List` of per-bar records; a column is a
  `List` of values, `NaN` cells in a column are `Option.none`.
* Exceptions are modelled by `Except AnalysisError`.  The source raises
  `ValueError` for bad arguments (`invalidArgument`), propagates upstream
  akshare failures unchanged (`dataSourceError`), and hits a pandas
  `IndexError` through `iloc[-1]`/`iloc[-2]` on short frames
  (`indexError`).  `dataQualityError` is included so that statements can
  distinguish it; no code path of the source produces it.
* The upstream akshare fetch is an opaque oracle passed in as an
  `Except Unit (List RawRow)` argument; wall-clock date defaulting and
  logging are side effects with no bearing on the verified data path and
  are omitted.
-/

/-- Error taxonomy used to model the exceptions of the analysis pipeline. -/
inductive AnalysisError where
  | invalidArgument
  | dataSourceError
  | dataQualityError
  | indexError
deriving DecidableEq

/-- IEEE-style float value: finite rational, NaN, or a signed infinity. -/
inductive FVal where
  | nan
  | fin (q : ℚ)
  | pinf
  | ninf
deriving DecidableEq

/-- IEEE `<`: any comparison involving NaN is false. -/
def FVal.lt : FVal → FVal → Bool
  | .nan, _ => false
  | _, .nan => false
  | .ninf, .ninf => false
  | .ninf, _ => true
  | _, .ninf => false
  | .fin a, .fin b => decide (a < b)
  | .fin _, .pinf => true
  | .pinf, _ => false

/-- IEEE `≤`: any comparison involving NaN is false. -/
def FVal.le : FVal → FVal → Bool
  | .nan, _ => false
  | _, .nan => false
  | .ninf, _ => true
  | _, .ninf => false
  | .fin a, .fin b => decide (a ≤ b)
  | .fin _, .pinf => true
  | .pinf, .pinf => true
  | .pinf, .fin _ => false

/-- One raw row as returned by the upstream source after the column rename
(lines 226-233).  The date is assumed parseable (`pd.to_datetime` raises
otherwise, which would propagate as an upstream-shaped failure); a numeric
cell that fails `pd.to_numeric(errors='coerce')` is `none` (a NaN cell).
The `open` column is called `openV` because `open` is a Lean keyword. -/
structure RawRow where
  date : Int
  openV : Option ℚ
  closeV : Option ℚ
  highV : Option ℚ
  lowV : Option ℚ
  volumeV : Option ℚ
deriving DecidableEq

/-- A fully coerced row (all six canonical columns numeric). -/
structure Row where
  date : Int
  openP : ℚ
  close : ℚ
  high : ℚ
  low : ℚ
  volume : ℚ
deriving DecidableEq

instance : Inhabited Row := ⟨⟨0, 0, 0, 0, 0, 0⟩⟩

/-- A row survives `df.dropna()` iff every numeric cell coerced. -/
def coerceRow (r : RawRow) : Option Row :=
  match r.openV, r.closeV, r.highV, r.lowV, r.volumeV with
  | some o, some c, some h, some l, some v =>
      some { date := r.date, openP := o, close := c, high := h, low := l, volume := v }
  | _, _, _, _, _ => none

/-- `df.dropna()` over the canonical numeric columns (line 237). -/
def dropna (rows : List RawRow) : List Row :=
  rows.filterMap coerceRow

/-- Date order used by `df.sort_values('date')`. -/
def dateLe (a b : Row) : Prop := a.date ≤ b.date

instance : DecidableRel dateLe := fun a b => inferInstanceAs (Decidable (a.date ≤ b.date))

/-- The normalization performed at lines 234-237: coerce numerics, drop
rows with NaN cells, sort ascending by date.  (The source performs no
duplicate-date removal.) -/
def normalizeRows (rows : List RawRow) : List Row :=
  List.insertionSort dateLe (dropna rows)

/-- Valid A-share code beginnings (line 180, `valid_prefixes`). -/
def validAPrefixes : List String := ["0", "3", "6", "688", "8"]

/-- The A-share code format check at line 181:
`any(stock_code.startswith(prefix) for prefix in valid_prefixes)`.
Python's `str.startswith(p)` holds iff `p`'s character sequence is an
initial segment of the code's character sequence. -/
def validACode (code : String) : Bool :=
  validAPrefixes.any fun p => p.data.isPrefixOf code.data

/-- Lift the opaque upstream fetch result into the pipeline's error type:
any upstream exception propagates (modelled as `dataSourceError`). -/
def fetchOr (upstream : Except Unit (List RawRow)) : Except AnalysisError (List RawRow) :=
  match upstream with
  | .error _ => .error .dataSourceError
  | .ok raw => .ok raw

/-- `get_stock_data` (lines 143-244): dispatch on `market_type`, validate
the code format for A-shares only (raising `ValueError` before the
upstream call), then normalize whatever the upstream source returned. -/
def getStockData (code market : String) (upstream : Except Unit (List RawRow)) :
    Except AnalysisError (List Row) :=
  if market = "A" then
    if validACode code then Except.map normalizeRows (fetchOr upstream)
    else .error .invalidArgument
  else if market = "HK" then Except.map normalizeRows (fetchOr upstream)
  else if market = "US" then Except.map normalizeRows (fetchOr upstream)
  else if market = "ETF" then Except.map normalizeRows (fetchOr upstream)
  else if market = "LOF" then Except.map normalizeRows (fetchOr upstream)
  else .error .invalidArgument

/-- Recurrence of `series.ewm(span, adjust=False).mean()` after the seed:
`y_t = alpha * x_t + (1 - alpha) * y_(t-1)`. -/
def ewmAux (alpha : ℚ) : ℚ → List ℚ → List ℚ
  | _, [] => []
  | prev, x :: xs =>
      let y := alpha * x + (1 - alpha) * prev
      y :: ewmAux alpha y xs

/-- `series.ewm(span=period, adjust=False).mean()`: smoothing factor
`2/(period+1)`, seeded by the first value. -/
def ewmMean (series : List ℚ) (period : ℕ) : List ℚ :=
  match series with
  | [] => []
  | x :: xs => x :: ewmAux (2 / ((period : ℚ) + 1)) x xs

/-- `_calculate_ema` (lines 389-391). -/
def calculateEma (series : List ℚ) (period : ℕ) : List ℚ :=
  ewmMean series period

/-- `series.rolling(window=w).mean()`: defined once the window is full
(`min_periods` defaults to the window size), `NaN` (`none`) before. -/
def rollingMean (w : ℕ) (xs : List ℚ) : List (Option ℚ) :=
  (List.range xs.length).map fun t =>
    if t + 1 < w then none
    else some ((((xs.take (t + 1)).drop (t + 1 - w)).sum) / (w : ℚ))

/-- The gain column of `_calculate_rsi`: `delta.where(delta > 0, 0)` over
`delta = series.diff()`.  The first delta is NaN, and `NaN > 0` is false,
so the first gain cell is `0`. -/
def rsiGainsAux : ℚ → List ℚ → List ℚ
  | _, [] => []
  | prev, x :: xs => (if prev < x then x - prev else 0) :: rsiGainsAux x xs

/-- See `rsiGainsAux`; the seed handles the leading NaN delta. -/
def rsiGains : List ℚ → List ℚ
  | [] => []
  | x :: xs => 0 :: rsiGainsAux x xs

/-- The loss column of `_calculate_rsi`: `-delta.where(delta < 0, 0)`. -/
def rsiLossesAux : ℚ → List ℚ → List ℚ
  | _, [] => []
  | prev, x :: xs => (if x < prev then prev - x else 0) :: rsiLossesAux x xs

/-- See `rsiLossesAux`; the seed handles the leading NaN delta. -/
def rsiLosses : List ℚ → List ℚ
  | [] => []
  | x :: xs => 0 :: rsiLossesAux x xs

/-- One cell of `100 - 100 / (1 + gain/loss)` under IEEE float semantics,
for rolling-mean cells `g`/`l` (both `≥ 0` by construction): a NaN input
stays NaN; `0/0` is NaN; `g/0` with `g > 0` is `+inf`, and then
`100 - 100/(1 + inf) = 100`. -/
def rsiCell : Option ℚ → Option ℚ → FVal
  | some g, some l =>
      if l = 0 then (if g = 0 then .nan else .fin 100)
      else .fin (100 - 100 / (1 + g / l))
  | _, _ => .nan

/-- `_calculate_rsi` (lines 393-399) as a whole-column computation. -/
def calculateRsi (series : List ℚ) (period : ℕ) : List FVal :=
  List.zipWith rsiCell
    (rollingMean period (rsiGains series))
    (rollingMean period (rsiLosses series))

/-- `_calculate_macd` (lines 401-408): MACD line, signal line, histogram. -/
def calculateMacd (series : List ℚ) : List ℚ × List ℚ × List ℚ :=
  let exp1 := ewmMean series 12
  let exp2 := ewmMean series 26
  let macd := List.zipWith (fun a b => a - b) exp1 exp2
  let signal := ewmMean macd 9
  let hist := List.zipWith (fun a b => a - b) macd signal
  (macd, signal, hist)

/-- `df['close'].shift(1)` restricted to the close column: a leading NaN,
then every close except the last. -/
def shiftedClose (rows : List Row) : List (Option ℚ) :=
  match rows with
  | [] => []
  | _ :: _ => none :: (rows.dropLast.map fun r => some r.close)

/-- One row of `pd.concat([tr1, tr2, tr3], axis=1).max(axis=1)`:
`tr1 = high - low` is always a number, while `tr2`/`tr3` are NaN exactly
when the shifted close is NaN (first bar); pandas' row-wise max skips NaN
cells, so the first bar's true range degrades to `high - low`. -/
def trCell (r : Row) : Option ℚ → ℚ
  | none => r.high - r.low
  | some pc => max (r.high - r.low) (max (abs (r.high - pc)) (abs (r.low - pc)))

/-- The true-range column of `_calculate_atr` (lines 418-428). -/
def trueRangeList (rows : List Row) : List ℚ :=
  List.zipWith trCell rows (shiftedClose rows)

/-- `_calculate_atr` (lines 418-429): rolling mean of the true range. -/
def calculateAtr (rows : List Row) (period : ℕ) : List (Option ℚ) :=
  rollingMean period (trueRangeList rows)

/-- `df['volume'] / df['Volume_MA']` for one bar, under IEEE semantics:
NaN moving average gives NaN; division by a zero moving average gives
`±inf` (or NaN for `0/0`). -/
def volumeRatioCell (v : ℚ) : Option ℚ → FVal
  | none => .nan
  | some m =>
      if m = 0 then (if v = 0 then .nan else if 0 < v then .pinf else .ninf)
      else .fin (v / m)

/-- The per-bar indicator values produced by `calculate_indicators` that
the scorer and the report consume.  (The Bollinger-band, volatility and
ROC columns are computed by the source but read by no claim-relevant
consumer, so they are not carried in the snapshot.) -/
structure Snapshot where
  date : Int
  close : ℚ
  ma5 : ℚ
  ma20 : ℚ
  ma60 : ℚ
  rsi : FVal
  macd : ℚ
  signal : ℚ
  volumeMA : Option ℚ
  volumeRatio : FVal
  atr : Option ℚ
deriving DecidableEq

instance : Inhabited Snapshot :=
  ⟨⟨0, 0, 0, 0, 0, .nan, 0, 0, none, .nan, none⟩⟩

/-- `calculate_indicators` (lines 246-317) restricted to the columns that
feed the scorer and the report: EMAs with periods 5/20/60, RSI(14),
MACD(12,26,9), volume MA(20) and volume ratio, ATR(14); parameters are
the `TechnicalIndicatorParams` defaults. -/
def calculateIndicators (rows : List Row) : List Snapshot :=
  let closes := rows.map Row.close
  let vols := rows.map Row.volume
  let ma5L := calculateEma closes 5
  let ma20L := calculateEma closes 20
  let ma60L := calculateEma closes 60
  let rsiL := calculateRsi closes 14
  let macdT := calculateMacd closes
  let vmaL := rollingMean 20 vols
  let ratioL := List.zipWith volumeRatioCell vols vmaL
  let atrL := calculateAtr rows 14
  (List.range rows.length).map fun t =>
    { date := (rows.getD t default).date
      close := closes.getD t 0
      ma5 := ma5L.getD t 0
      ma20 := ma20L.getD t 0
      ma60 := ma60L.getD t 0
      rsi := rsiL.getD t .nan
      macd := macdT.1.getD t 0
      signal := macdT.2.1.getD t 0
      volumeMA := vmaL.getD t none
      volumeRatio := ratioL.getD t .nan
      atr := atrL.getD t none }

/-- The additive rubric of `_calculate_score` (lines 434-460) on the
latest bar.  Python's chained `30 <= rsi <= 70` is the conjunction of the
two float comparisons, each false on NaN. -/
def scoreOf (latest : Snapshot) : ℚ :=
  (if latest.ma5 > latest.ma20 then 15 else 0)
  + (if latest.ma20 > latest.ma60 then 15 else 0)
  + (if FVal.le (.fin 30) latest.rsi && FVal.le latest.rsi (.fin 70) then 20
     else if FVal.lt latest.rsi (.fin 30) then 15 else 0)
  + (if latest.macd > latest.signal then 20 else 0)
  + (if FVal.lt (.fin (3 / 2)) latest.volumeRatio then 30
     else if FVal.lt (.fin 1) latest.volumeRatio then 15 else 0)

/-- Natural-number twin of `scoreOf`, used to reason about range and
divisibility of the produced scores. -/
def scoreN (latest : Snapshot) : ℕ :=
  (if latest.ma5 > latest.ma20 then 15 else 0)
  + (if latest.ma20 > latest.ma60 then 15 else 0)
  + (if FVal.le (.fin 30) latest.rsi && FVal.le latest.rsi (.fin 70) then 20
     else if FVal.lt latest.rsi (.fin 30) then 15 else 0)
  + (if latest.macd > latest.signal then 20 else 0)
  + (if FVal.lt (.fin (3 / 2)) latest.volumeRatio then 30
     else if FVal.lt (.fin 1) latest.volumeRatio then 15 else 0)

/-- `_calculate_score` (lines 431-460): reads `df.iloc[-1]`, which raises
`IndexError` on an empty frame. -/
def calculateScore (df : List Snapshot) : Except AnalysisError ℚ :=
  match df.getLast? with
  | none => .error .indexError
  | some latest => .ok (scoreOf latest)

/-- `_get_recommendation` (lines 466-477). -/
def getRecommendation (score : ℚ) : String :=
  if score ≥ 80 then "强烈推荐买入"
  else if score ≥ 60 then "建议买入"
  else if score ≥ 40 then "观望"
  else if score ≥ 20 then "建议卖出"
  else "强烈建议卖出"

/-- The assembled `StockAnalysisResult` (lines 368-380); `analysis_date`
is wall-clock output and is omitted. -/
structure Report where
  stockCode : String
  marketType : String
  score : ℚ
  price : ℚ
  priceChange : ℚ
  maTrend : String
  rsi : Option FVal
  macdSignal : String
  volumeStatus : String
  recommendation : String
deriving DecidableEq

/-- `df.iloc[-2]`: the second-to-last element, when it exists. -/
def iloc2 (df : List Snapshot) : Option Snapshot :=
  df.dropLast.getLast?

/-- `analyze_stock` (lines 319-387): fetch, compute indicators, score the
frame, then read `iloc[-1]`/`iloc[-2]` and assemble the report.  Any
step's exception propagates unchanged; a frame with fewer than two rows
raises `IndexError` (inside `_calculate_score` for an empty frame, at
`iloc[-2]` for a one-row frame). -/
def analyzeStock (code market : String) (upstream : Except Unit (List RawRow)) :
    Except AnalysisError Report :=
  match getStockData code market upstream with
  | .error e => .error e
  | .ok rows =>
      let ind := calculateIndicators rows
      match calculateScore ind with
      | .error e => .error e
      | .ok score =>
          match ind.getLast?, iloc2 ind with
          | some latest, some prev =>
              .ok { stockCode := code
                    marketType := market
                    score := score
                    price := latest.close
                    priceChange := (latest.close - prev.close) / prev.close * 100
                    maTrend := if latest.ma5 > latest.ma20 then "UP" else "DOWN"
                    rsi := if latest.rsi = .nan then none else some latest.rsi
                    macdSignal := if latest.macd > latest.signal then "BUY" else "SELL"
                    volumeStatus := if FVal.lt (.fin (3 / 2)) latest.volumeRatio
                                    then "HIGH" else "NORMAL"
                    recommendation := getRecommendation score }
          | _, _ => .error .indexError

/-- A single fully numeric raw row, used as a concrete short-frame input. -/
def rawEx1 : RawRow :=
  { date := 1, openV := some 1, closeV := some 1, highV := some 1,
    lowV := some 1, volumeV := some 1 }

/-- Two fully numeric raw rows sharing the date `5` but with different
closes: input showing that duplicate dates survive normalization. -/
def rawDup1 : RawRow :=
  { date := 5, openV := some 1, closeV := some 2, highV := some 3,
    lowV := some 1, volumeV := some 10 }

/-- Second duplicate-date row, see `rawDup1`. -/
def rawDup2 : RawRow :=
  { date := 5, openV := some 1, closeV := some 4, highV := some 5,
    lowV := some 1, volumeV := some 20 }

/-- First of two well-formed raw rows for a minimal successful analysis. -/
def rawB1 : RawRow :=
  { date := 1, openV := some 1, closeV := some 1, highV := some 1,
    lowV := some 1, volumeV := some 1 }

/-- Second of two well-formed raw rows for a minimal successful analysis. -/
def rawB2 : RawRow :=
  { date := 2, openV := some 1, closeV := some 1, highV := some 1,
    lowV := some 1, volumeV := some 1 }

/-- The report produced by analyzing `[rawB1, rawB2]` as an A-share. -/
def repEx : Report :=
  { stockCode := "600519", marketType := "A", score := 0, price := 1,
    priceChange := 0, maTrend := "DOWN", rsi := none, macdSignal := "SELL",
    volumeStatus := "NORMAL", recommendation := "强烈建议卖出" }

/-- A concrete indicator snapshot with every rubric bucket awarded. -/
def snapEx : Snapshot :=
  { date := 0, close := 10, ma5 := 3, ma20 := 2, ma60 := 1, rsi := .fin 50,
    macd := 1, signal := 0, volumeMA := some 1, volumeRatio := .fin 2,
    atr := some 1 }

/-- A second concrete snapshot, differing from `snapEx`. -/
def snapEx2 : Snapshot :=
  { date := 3, close := 5, ma5 := 1, ma20 := 2, ma60 := 3, rsi := .nan,
    macd := 0, signal := 1, volumeMA := none, volumeRatio := .nan,
    atr := none }

/-- First of three concrete rows exercising the ATR computation. -/
def rowAtr1 : Row := { date := 1, openP := 10, close := 12, high := 14, low := 9, volume := 5 }

/-- Second of three concrete rows exercising the ATR computation. -/
def rowAtr2 : Row := { date := 2, openP := 12, close := 11, high := 13, low := 8, volume := 6 }

/-- Third of three concrete rows exercising the ATR computation. -/
def rowAtr3 : Row := { date := 3, openP := 11, close := 20, high := 22, low := 10, volume := 7 }

/-- Three-row series for the ATR witness. -/
def rowsAtr : List Row := [rowAtr1, rowAtr2, rowAtr3]

/-- A flat 20-bar series with constant close `1` and constant volume `0`. -/
def flatRowZeroVol : Row :=
  { date := 0, openP := 1, close := 1, high := 1, low := 1, volume := 0 }

/-- Twenty copies of `flatRowZeroVol`: long enough for the 20-bar volume
moving average to be defined. -/
def flatZeroVol : List Row := List.replicate 20 flatRowZeroVol

/-- A flat row with constant close `2` and constant volume `3`. -/
def flatRowPos : Row :=
  { date := 0, openP := 2, close := 2, high := 2, low := 2, volume := 3 }

/-- Twenty-one copies of `flatRowPos`. -/
def flatPos : List Row := List.replicate 21 flatRowPos

/-! ## Helper lemmas -/

/-- `scoreOf` is the rational cast of its natural-number twin `scoreN`. -/
theorem scoreOf_eq_natCast (s : Snapshot) : scoreOf s = (scoreN s : ℚ) := by
  unfold scoreOf scoreN
  split_ifs <;> norm_num

/-- The rubric total never exceeds 100. -/
theorem scoreN_le_100 (s : Snapshot) : scoreN s ≤ 100 := by
  unfold scoreN
  split_ifs <;> decide

/-- Every rubric bucket awards a multiple of five. -/
theorem five_dvd_scoreN (s : Snapshot) : 5 ∣ scoreN s := by
  unfold scoreN
  split_ifs <;> decide

/-! ## Claim theorems -/

/-- C1: the composite score of `_calculate_score` equals the fixed additive
rubric evaluated on the last bar — +15 if MA5 > MA20, +15 if MA20 > MA60,
+20 if 30 ≤ RSI ≤ 70 else +15 if RSI < 30 else +0 (an undefined/NaN RSI
contributes 0 because both float comparisons are false), +20 if
MACD > Signal, and +30 if Volume_Ratio > 1.5 else +15 if Volume_Ratio > 1
else +0 — and consequently the score always lies in [0, 100]. -/
theorem calculateScore_rubric_and_bounds (df : List Snapshot) (latest : Snapshot)
    (h : df.getLast? = some latest) :
    calculateScore df = .ok
      ((if latest.ma5 > latest.ma20 then (15 : ℚ) else 0)
        + (if latest.ma20 > latest.ma60 then 15 else 0)
        + (if FVal.le (.fin 30) latest.rsi && FVal.le latest.rsi (.fin 70) then 20
           else if FVal.lt latest.rsi (.fin 30) then 15 else 0)
        + (if latest.macd > latest.signal then 20 else 0)
        + (if FVal.lt (.fin (3 / 2)) latest.volumeRatio then 30
           else if FVal.lt (.fin 1) latest.volumeRatio then 15 else 0)) ∧
    0 ≤ scoreOf latest ∧ scoreOf latest ≤ 100 := by
  refine ⟨?_, ?_, ?_⟩
  · simp [calculateScore, h, scoreOf]
  · rw [scoreOf_eq_natCast]
    exact Nat.cast_nonneg _
  · rw [scoreOf_eq_natCast]
    exact_mod_cast scoreN_le_100 latest

/-- Witness for C1 at the concrete snapshot `snapEx`. -/
theorem calculateScore_rubric_and_bounds_witness :
    calculateScore [snapEx] = .ok
      ((if snapEx.ma5 > snapEx.ma20 then (15 : ℚ) else 0)
        + (if snapEx.ma20 > snapEx.ma60 then 15 else 0)
        + (if FVal.le (.fin 30) snapEx.rsi && FVal.le snapEx.rsi (.fin 70) then 20
           else if FVal.lt snapEx.rsi (.fin 30) then 15 else 0)
        + (if snapEx.macd > snapEx.signal then 20 else 0)
        + (if FVal.lt (.fin (3 / 2)) snapEx.volumeRatio then 30
           else if FVal.lt (.fin 1) snapEx.volumeRatio then 15 else 0)) ∧
    0 ≤ scoreOf snapEx ∧ scoreOf snapEx ≤ 100 :=
  calculateScore_rubric_and_bounds [snapEx] snapEx rfl

/-- C2: `_get_recommendation` is a pure function of the score with
exclusive thresholds, each boundary (80/60/40/20) mapping to the upper
(buy-side) label. -/
theorem getRecommendation_thresholds (s : ℚ) :
    (getRecommendation s = "强烈推荐买入" ↔ 80 ≤ s) ∧
    (getRecommendation s = "建议买入" ↔ 60 ≤ s ∧ s < 80) ∧
    (getRecommendation s = "观望" ↔ 40 ≤ s ∧ s < 60) ∧
    (getRecommendation s = "建议卖出" ↔ 20 ≤ s ∧ s < 40) ∧
    (getRecommendation s = "强烈建议卖出" ↔ s < 20) := by
  unfold getRecommendation
  split_ifs with h1 h2 h3 h4 <;>
    refine ⟨?_, ?_, ?_, ?_, ?_⟩ <;>
    simp_all <;>
    first
      | linarith
      | (intro hx; linarith)

/-- C9: `_calculate_score` reads only `df.iloc[-1]`: any two frames with
the same last bar receive the same score. -/
theorem calculateScore_last_bar_only (df1 df2 : List Snapshot)
    (h : df1.getLast? = df2.getLast?) :
    calculateScore df1 = calculateScore df2 := by
  unfold calculateScore
  rw [h]

/-- Witness for C9: prepending a different bar leaves the score unchanged. -/
theorem calculateScore_last_bar_only_witness :
    calculateScore [snapEx2, snapEx] = calculateScore [snapEx] :=
  calculateScore_last_bar_only [snapEx2, snapEx] [snapEx] rfl

/-- C10: every score the rubric can produce is `5 * n` for some `n ≤ 20`,
so fractional scores cannot arise and the 80/60/40/20 boundaries are met
exactly or skipped. -/
theorem calculateScore_multiple_of_five (df : List Snapshot) (s : ℚ)
    (h : calculateScore df = .ok s) :
    ∃ n : ℕ, s = 5 * n ∧ n ≤ 20 := by
  unfold calculateScore at h
  cases hl : df.getLast? with
  | none => rw [hl] at h; exact absurd h (by simp)
  | some latest =>
      rw [hl] at h
      simp only [Except.ok.injEq] at h
      obtain ⟨k, hk⟩ := five_dvd_scoreN latest
      refine ⟨k, ?_, ?_⟩
      · rw [← h, scoreOf_eq_natCast, hk]
        push_cast
        ring
      · have h100 := scoreN_le_100 latest
        omega

/-- Witness for C10 at the concrete one-bar frame `[snapEx]`. -/
theorem calculateScore_multiple_of_five_witness :
    ∃ n : ℕ, (100 : ℚ) = 5 * n ∧ n ≤ 20 :=
  calculateScore_multiple_of_five [snapEx] 100 (by
    unfold calculateScore
    norm_num [scoreOf, snapEx, FVal.lt, FVal.le])

/-- C5: for the A-share category the fetch fails with `InvalidArgument`,
independently of the upstream source, exactly when the security code does
not start with one of the prefixes 0/3/6/688/8; `"600519"` is accepted,
`"12345"` is rejected; and no such format check exists for the HK, US,
ETF or LOF categories. -/
theorem getStockData_ashare_validation :
    (∀ code : String, ∀ upstream : Except Unit (List RawRow),
        getStockData code "A" upstream = .error .invalidArgument ↔
          validACode code = false) ∧
    (∀ code : String, ∀ u1 u2 : Except Unit (List RawRow), validACode code = false →
        getStockData code "A" u1 = getStockData code "A" u2) ∧
    (∀ (code market : String) (upstream : Except Unit (List RawRow)),
        market = "HK" ∨ market = "US" ∨ market = "ETF" ∨ market = "LOF" →
        getStockData code market upstream ≠ .error .invalidArgument) ∧
    validACode "600519" = true ∧ validACode "12345" = false := by
  refine ⟨?_, ?_, ?_, by decide, by decide⟩
  · intro code upstream
    cases hv : validACode code <;> cases upstream <;>
      simp [getStockData, hv, fetchOr, Except.map]
  · intro code u1 u2 hv
    simp [getStockData, hv]
  · intro code market upstream hm
    rcases hm with rfl | rfl | rfl | rfl <;> cases upstream <;>
      simp [getStockData, fetchOr, Except.map]

/-- Witness for C5: the rejected code `"12345"` fails identically for two
different upstream oracles, and `"600519"` under HK is never rejected for
format. -/
theorem getStockData_ashare_validation_witness :
    (getStockData "12345" "A" (.ok []) = .error .invalidArgument ↔
      validACode "12345" = false) ∧
    getStockData "12345" "A" (.ok [rawEx1]) = getStockData "12345" "A" (.error ()) ∧
    getStockData "600519" "HK" (.ok []) ≠ .error .invalidArgument :=
  ⟨getStockData_ashare_validation.1 "12345" (.ok []),
   getStockData_ashare_validation.2.1 "12345" (.ok [rawEx1]) (.error ()) (by decide),
   getStockData_ashare_validation.2.2.1 "600519" "HK" (.ok []) (Or.inl rfl)⟩

/-- C4 (amended): normalization sorts the surviving rows ascending by date
and keeps every survivor of `dropna` (it performs no duplicate-date
removal), so the resulting dates are non-decreasing but not necessarily
strictly increasing or unique. -/
theorem normalizeRows_sorted_no_dedup (raw : List RawRow) :
    List.Sorted dateLe (normalizeRows raw) ∧ (normalizeRows raw).Perm (dropna raw) := by
  constructor
  · haveI : IsTotal Row dateLe := ⟨fun a b => Int.le_total a.date b.date⟩
    haveI : IsTrans Row dateLe := ⟨fun _ _ _ hab hbc => le_trans hab hbc⟩
    exact List.sorted_insertionSort dateLe (dropna raw)
  · exact List.perm_insertionSort dateLe (dropna raw)

/-- C4 counterexample: two valid rows sharing date `5` both survive
normalization — the result's dates are `[5, 5]`, not strictly increasing,
so exact-duplicate dates are not removed. -/
theorem normalizeRows_duplicate_dates_counterexample :
    (normalizeRows [rawDup1, rawDup2]).map Row.date = [5, 5] ∧
    ¬ List.Pairwise (fun a b : Row => a.date < b.date)
        (normalizeRows [rawDup1, rawDup2]) := by
  have h : normalizeRows [rawDup1, rawDup2] =
      [{ date := 5, openP := 1, close := 2, high := 3, low := 1, volume := 10 },
       { date := 5, openP := 1, close := 4, high := 5, low := 1, volume := 20 }] := by
    simp [normalizeRows, dropna, coerceRow, rawDup1, rawDup2, List.insertionSort,
      List.orderedInsert, dateLe]
  rw [h]
  exact ⟨rfl, by simp [List.pairwise_cons]⟩

/-- C3 (amended): when fewer than 2 valid rows survive normalization, the
analysis does fail, but with the pandas `IndexError` raised by
`iloc[-1]`/`iloc[-2]` — the source raises no dedicated data-quality
error. -/
theorem analyzeStock_short_frame_index_error (code market : String)
    (upstream : Except Unit (List RawRow)) (nrows : List Row)
    (hg : getStockData code market upstream = .ok nrows) (hlen : nrows.length < 2) :
    analyzeStock code market upstream = .error .indexError := by
  unfold analyzeStock
  rw [hg]
  rcases nrows with _ | ⟨r, _ | ⟨r2, rest⟩⟩
  · simp [calculateIndicators, calculateScore]
  · simp [calculateIndicators, calculateScore, iloc2, List.range_succ]
  · simp only [List.length_cons] at hlen
    omega

/-- Witness for C3's amended theorem on a concrete one-row fetch. -/
theorem analyzeStock_short_frame_witness :
    analyzeStock "600519" "A" (.ok [rawEx1]) = .error .indexError :=
  analyzeStock_short_frame_index_error "600519" "A" (.ok [rawEx1])
    [{ date := 1, openP := 1, close := 1, high := 1, low := 1, volume := 1 }]
    (by simp [getStockData, validACode, validAPrefixes, Except.map, fetchOr,
          normalizeRows, dropna, coerceRow, rawEx1, List.insertionSort])
    (by simp)

/-- C3 counterexample: a fetch with one valid row makes the analysis fail
with an index error, not a data-quality error (and an empty fetch behaves
the same), refuting that a `DataQualityError` is raised. -/
theorem analyzeStock_no_dataQualityError_counterexample :
    analyzeStock "600519" "A" (.ok [rawEx1]) = .error .indexError ∧
    analyzeStock "600519" "A" (.ok [rawEx1]) ≠ .error .dataQualityError ∧
    analyzeStock "600519" "A" (.ok []) = .error .indexError := by
  have h1 : getStockData "600519" "A" (.ok [rawEx1]) =
      .ok [{ date := 1, openP := 1, close := 1, high := 1, low := 1, volume := 1 }] := by
    simp [getStockData, validACode, validAPrefixes, Except.map, fetchOr,
      normalizeRows, dropna, coerceRow, rawEx1, List.insertionSort]
  have h0 : getStockData "600519" "A" (.ok []) = .ok [] := by
    simp [getStockData, validACode, validAPrefixes, Except.map, fetchOr,
      normalizeRows, dropna]
  have e1 : analyzeStock "600519" "A" (.ok [rawEx1]) = .error .indexError := by
    unfold analyzeStock
    rw [h1]
    simp [calculateIndicators, calculateScore, iloc2, List.range_succ]
  have e0 : analyzeStock "600519" "A" (.ok []) = .error .indexError := by
    unfold analyzeStock
    rw [h0]
    simp [calculateIndicators, calculateScore]
  exact ⟨e1, by rw [e1]; simp, e0⟩

/-- When the branches differ, an if-then-else equals a branch exactly when
its condition selects that branch. -/
theorem iteEq_iff_of_ne {α : Type} {c : Prop} [Decidable c] {a b : α} (hab : a ≠ b) :
    ((if c then a else b) = a ↔ c) ∧ ((if c then a else b) = b ↔ ¬ c) := by
  by_cases hc : c <;> simp [hc, hab, Ne.symm hab]

/-- C6: a successful analysis reports `price_change` computed from the
last two bars as `(latest.close - prev.close)/prev.close * 100`, and the
labels are exact: `ma_trend` is UP iff MA5 > MA20 on the last bar,
`macd_signal` is BUY iff MACD > Signal, `volume_status` is HIGH iff
Volume_Ratio > 1.5, with DOWN/SELL/NORMAL otherwise. -/
theorem analyzeStock_report_fields (code market : String)
    (upstream : Except Unit (List RawRow)) (rep : Report)
    (h : analyzeStock code market upstream = .ok rep) :
    ∃ rows latest prev,
      getStockData code market upstream = .ok rows ∧
      (calculateIndicators rows).getLast? = some latest ∧
      iloc2 (calculateIndicators rows) = some prev ∧
      rep.priceChange = (latest.close - prev.close) / prev.close * 100 ∧
      rep.price = latest.close ∧
      (rep.maTrend = "UP" ↔ latest.ma5 > latest.ma20) ∧
      (rep.maTrend = "DOWN" ↔ ¬ latest.ma5 > latest.ma20) ∧
      (rep.macdSignal = "BUY" ↔ latest.macd > latest.signal) ∧
      (rep.macdSignal = "SELL" ↔ ¬ latest.macd > latest.signal) ∧
      (rep.volumeStatus = "HIGH" ↔ FVal.lt (.fin (3 / 2)) latest.volumeRatio = true) ∧
      (rep.volumeStatus = "NORMAL" ↔ ¬ FVal.lt (.fin (3 / 2)) latest.volumeRatio = true) := by
  cases hg : getStockData code market upstream with
  | error e =>
      have hx : analyzeStock code market upstream = .error e := by
        unfold analyzeStock
        rw [hg]
      rw [hx] at h
      exact absurd h (by simp)
  | ok rows =>
      cases hs : calculateScore (calculateIndicators rows) with
      | error e =>
          have hx : analyzeStock code market upstream = .error e := by
            unfold analyzeStock
            rw [hg]
            simp only [hs]
          rw [hx] at h
          exact absurd h (by simp)
      | ok score =>
          cases hL : (calculateIndicators rows).getLast? with
          | none =>
              have hx : analyzeStock code market upstream = .error .indexError := by
                unfold analyzeStock
                rw [hg]
                simp only [hs, hL]
              rw [hx] at h
              exact absurd h (by simp)
          | some latest =>
              cases hP : iloc2 (calculateIndicators rows) with
              | none =>
                  have hx : analyzeStock code market upstream = .error .indexError := by
                    unfold analyzeStock
                    rw [hg]
                    simp only [hs, hL, hP]
                  rw [hx] at h
                  exact absurd h (by simp)
              | some prev =>
                  have hx : analyzeStock code market upstream = .ok
                      { stockCode := code, marketType := market, score := score,
                        price := latest.close,
                        priceChange := (latest.close - prev.close) / prev.close * 100,
                        maTrend := if latest.ma5 > latest.ma20 then "UP" else "DOWN",
                        rsi := if latest.rsi = .nan then none else some latest.rsi,
                        macdSignal := if latest.macd > latest.signal then "BUY" else "SELL",
                        volumeStatus := if FVal.lt (.fin (3 / 2)) latest.volumeRatio
                                        then "HIGH" else "NORMAL",
                        recommendation := getRecommendation score } := by
                    unfold analyzeStock
                    rw [hg]
                    simp only [hs, hL, hP]
                  rw [hx] at h
                  simp only [Except.ok.injEq] at h
                  refine ⟨rows, latest, prev, rfl, hL, hP, ?_, ?_, ?_, ?_, ?_, ?_, ?_, ?_⟩ <;>
                    rw [← h]
                  · exact (iteEq_iff_of_ne (by simp)).1
                  · exact (iteEq_iff_of_ne (by simp)).2
                  · exact (iteEq_iff_of_ne (by simp)).1
                  · exact (iteEq_iff_of_ne (by simp)).2
                  · exact (iteEq_iff_of_ne (by simp)).1
                  · exact (iteEq_iff_of_ne (by simp)).2

/-- Witness for C6: the concrete two-bar A-share analysis of
`[rawB1, rawB2]` yields `repEx` and satisfies every reported-field
equation. -/
theorem analyzeStock_report_fields_witness :
    ∃ rows latest prev,
      getStockData "600519" "A" (.ok [rawB1, rawB2]) = .ok rows ∧
      (calculateIndicators rows).getLast? = some latest ∧
      iloc2 (calculateIndicators rows) = some prev ∧
      repEx.priceChange = (latest.close - prev.close) / prev.close * 100 ∧
      repEx.price = latest.close ∧
      (repEx.maTrend = "UP" ↔ latest.ma5 > latest.ma20) ∧
      (repEx.maTrend = "DOWN" ↔ ¬ latest.ma5 > latest.ma20) ∧
      (repEx.macdSignal = "BUY" ↔ latest.macd > latest.signal) ∧
      (repEx.macdSignal = "SELL" ↔ ¬ latest.macd > latest.signal) ∧
      (repEx.volumeStatus = "HIGH" ↔ FVal.lt (.fin (3 / 2)) latest.volumeRatio = true) ∧
      (repEx.volumeStatus = "NORMAL" ↔ ¬ FVal.lt (.fin (3 / 2)) latest.volumeRatio = true) :=
  analyzeStock_report_fields "600519" "A" (.ok [rawB1, rawB2]) repEx (by
    have hg : getStockData "600519" "A" (.ok [rawB1, rawB2]) =
        .ok [⟨1, 1, 1, 1, 1, 1⟩, ⟨2, 1, 1, 1, 1, 1⟩] := by
      simp [getStockData, validACode, validAPrefixes, Except.map, fetchOr, normalizeRows,
        dropna, coerceRow, rawB1, rawB2, List.insertionSort, List.orderedInsert, dateLe]
    have hind : calculateIndicators [(⟨1, 1, 1, 1, 1, 1⟩ : Row), ⟨2, 1, 1, 1, 1, 1⟩] =
        [⟨1, 1, 1, 1, 1, .nan, 0, 0, none, .nan, none⟩,
         ⟨2, 1, 1, 1, 1, .nan, 0, 0, none, .nan, none⟩] := by
      norm_num [calculateIndicators, calculateEma, ewmMean, ewmAux, calculateRsi, rsiGains,
        rsiGainsAux, rsiLosses, rsiLossesAux, rollingMean, rsiCell, calculateMacd,
        calculateAtr, trueRangeList, shiftedClose, trCell, volumeRatioCell, List.range_succ]
    unfold analyzeStock
    rw [hg]
    simp only [hind]
    norm_num [calculateScore, scoreOf, iloc2, getRecommendation, repEx, FVal.lt, FVal.le])

/-- `shift(1)` preserves the column length. -/
theorem shiftedClose_length (rows : List Row) :
    (shiftedClose rows).length = rows.length := by
  cases rows with
  | nil => rfl
  | cons r rest => simp [shiftedClose]

/-- The true-range column has one cell per bar. -/
theorem trueRangeList_length (rows : List Row) :
    (trueRangeList rows).length = rows.length := by
  simp [trueRangeList, shiftedClose_length]

/-- Reading the shifted close column at `t + 1` returns bar `t`'s close. -/
theorem shiftedClose_getElem (rows : List Row) (t : ℕ) (rprev : Row)
    (h : rows[t]? = some rprev) (hlt : t + 1 < rows.length) :
    (shiftedClose rows)[t + 1]? = some (some rprev.close) := by
  cases rows with
  | nil => simp at h
  | cons r rest =>
      simp only [shiftedClose, List.getElem?_cons_succ, List.getElem?_map,
        List.getElem?_dropLast]
      rw [if_pos (by simp at hlt ⊢; omega)]
      rw [h]
      rfl

/-- C7: the ATR column is the `period`-bar simple rolling mean of the true
range, where a bar with a predecessor has true range
`max(high - low, |high - prev_close|, |low - prev_close|)` and the first
bar (no previous close) has true range exactly `high - low`. -/
theorem calculateAtr_spec (rows : List Row) (period t : ℕ) :
    (∀ r rest, rows = r :: rest →
        (trueRangeList rows)[0]? = some (r.high - r.low)) ∧
    (∀ rprev rcur, rows[t]? = some rprev → rows[t + 1]? = some rcur →
        (trueRangeList rows)[t + 1]? =
          some (max (rcur.high - rcur.low)
            (max (abs (rcur.high - rprev.close)) (abs (rcur.low - rprev.close))))) ∧
    (0 < period → period ≤ t + 1 → t < rows.length →
        (calculateAtr rows period)[t]? =
          some (some ((((trueRangeList rows).take (t + 1)).drop (t + 1 - period)).sum
            / (period : ℚ)))) := by
  refine ⟨?_, ?_, ?_⟩
  · rintro r rest rfl
    simp [trueRangeList, shiftedClose, trCell]
  · intro rprev rcur hp hc
    have hlt : t + 1 < rows.length := by
      obtain ⟨hw, -⟩ := List.getElem?_eq_some_iff.mp hc
      exact hw
    rw [trueRangeList, List.getElem?_zipWith, hc,
      shiftedClose_getElem rows t rprev hp hlt]
    simp [trCell]
  · intro hp0 hpt hlen
    unfold calculateAtr rollingMean
    rw [List.getElem?_map, List.getElem?_range (by rw [trueRangeList_length]; exact hlen)]
    have hnp : ¬ (t + 1 < period) := by omega
    simp [hnp]

/-- Witness for C7 on the concrete three-bar series `rowsAtr` with
period 2. -/
theorem calculateAtr_spec_witness :
    (trueRangeList rowsAtr)[0]? = some (rowAtr1.high - rowAtr1.low) ∧
    (trueRangeList rowsAtr)[1]? =
      some (max (rowAtr2.high - rowAtr2.low)
        (max (abs (rowAtr2.high - rowAtr1.close)) (abs (rowAtr2.low - rowAtr1.close)))) ∧
    (calculateAtr rowsAtr 2)[1]? =
      some (some ((((trueRangeList rowsAtr).take 2).drop 0).sum / (2 : ℚ))) :=
  ⟨(calculateAtr_spec rowsAtr 2 0).1 rowAtr1 [rowAtr2, rowAtr3] rfl,
   (calculateAtr_spec rowsAtr 2 0).2.1 rowAtr1 rowAtr2 rfl rfl,
   (calculateAtr_spec rowsAtr 2 1).2.2 (by norm_num) (by norm_num) (by simp [rowsAtr])⟩

/-- The EWM recurrence fixes a constant series at its seed. -/
theorem ewmAux_const (alpha c : ℚ) (n : ℕ) :
    ewmAux alpha c (List.replicate n c) = List.replicate n c := by
  induction n with
  | zero => rfl
  | succ n ih =>
      have hy : alpha * c + (1 - alpha) * c = c := by ring
      simp only [List.replicate_succ, ewmAux, hy, ih]

/-- An EWM mean of a constant series is that constant series. -/
theorem ewmMean_const (c : ℚ) (n period : ℕ) :
    ewmMean (List.replicate n c) period = List.replicate n c := by
  cases n with
  | zero => rfl
  | succ n => simp only [List.replicate_succ, ewmMean, ewmAux_const]

/-- A constant series has no positive deltas. -/
theorem rsiGainsAux_const (c : ℚ) (n : ℕ) :
    rsiGainsAux c (List.replicate n c) = List.replicate n 0 := by
  induction n with
  | zero => rfl
  | succ n ih =>
      simp only [List.replicate_succ, rsiGainsAux, ih]
      rw [if_neg (lt_irrefl c)]

/-- The gain column of a constant series is all zeros. -/
theorem rsiGains_const (c : ℚ) (n : ℕ) :
    rsiGains (List.replicate n c) = List.replicate n 0 := by
  cases n with
  | zero => rfl
  | succ n => simp only [List.replicate_succ, rsiGains, rsiGainsAux_const]

/-- A constant series has no negative deltas. -/
theorem rsiLossesAux_const (c : ℚ) (n : ℕ) :
    rsiLossesAux c (List.replicate n c) = List.replicate n 0 := by
  induction n with
  | zero => rfl
  | succ n ih =>
      simp only [List.replicate_succ, rsiLossesAux, ih]
      rw [if_neg (lt_irrefl c)]

/-- The loss column of a constant series is all zeros. -/
theorem rsiLosses_const (c : ℚ) (n : ℕ) :
    rsiLosses (List.replicate n c) = List.replicate n 0 := by
  cases n with
  | zero => rfl
  | succ n => simp only [List.replicate_succ, rsiLosses, rsiLossesAux_const]

/-- The rolling mean of a constant series is that constant wherever the
window is full, NaN before. -/
theorem rollingMean_replicate (w n : ℕ) (hw : 0 < w) (a : ℚ) :
    rollingMean w (List.replicate n a) =
      (List.range n).map fun t => if t + 1 < w then none else some a := by
  unfold rollingMean
  rw [List.length_replicate]
  apply List.map_congr_left
  intro t ht
  rw [List.mem_range] at ht
  by_cases h : t + 1 < w
  · simp [h]
  · rw [if_neg h, if_neg h]
    congr 1
    rw [List.take_replicate, List.drop_replicate, List.sum_replicate]
    have hmin : min (t + 1) n = t + 1 := by omega
    have hcount : min (t + 1) n - (t + 1 - w) = w := by omega
    rw [hmin] at hcount
    rw [hmin, hcount, nsmul_eq_mul]
    have hw' : (w : ℚ) ≠ 0 := Nat.cast_ne_zero.mpr hw.ne'
    field_simp

/-- The RSI of a constant series is NaN at every bar: during the warm-up
window because the rolling means are NaN, afterwards because
`rs = 0/0` is NaN. -/
theorem calculateRsi_const (c : ℚ) (n period : ℕ) (hp : 0 < period) :
    calculateRsi (List.replicate n c) period = (List.range n).map fun _ => FVal.nan := by
  unfold calculateRsi
  rw [rsiGains_const, rsiLosses_const, rollingMean_replicate _ _ hp,
    List.zipWith_map, List.zipWith_same]
  apply List.map_congr_left
  intro t _
  by_cases h : t + 1 < period
  · simp [h, rsiCell]
  · simp [h, rsiCell]

/-- Both MACD lines of a constant series are identically zero. -/
theorem calculateMacd_const (c : ℚ) (n : ℕ) :
    (calculateMacd (List.replicate n c)).1 = List.replicate n 0 ∧
    (calculateMacd (List.replicate n c)).2.1 = List.replicate n 0 := by
  have hz : List.zipWith (fun a b => a - b) (List.replicate n c) (List.replicate n c) =
      List.replicate n (0 : ℚ) := by
    rw [List.zipWith_same, List.map_replicate]
    simp
  constructor <;> simp only [calculateMacd, ewmMean_const, hz, ewmMean_const]

/-- `getD` on a replicated list inside its length. -/
theorem getD_replicate_of_lt {α : Type} (a d : α) {n t : ℕ} (h : t < n) :
    (List.replicate n a).getD t d = a := by
  rw [List.getD_eq_getElem?_getD, List.getElem?_replicate, if_pos h]
  rfl

/-- `getD` on a mapped range inside its length. -/
theorem getD_map_range {α : Type} (f : ℕ → α) (d : α) {n t : ℕ} (h : t < n) :
    ((List.range n).map f).getD t d = f t := by
  rw [List.getD_eq_getElem?_getD, List.getElem?_map, List.getElem?_range h]
  rfl

/-- C8 (amended): over any series with constant close `c`, every bar's
EMAs equal `c` and MACD and Signal are zero, the RSI is NaN (undefined, no
division-by-zero failure); and when the volume is a constant `v ≠ 0`, the
volume ratio is exactly 1 wherever the volume moving average is defined
(for `v = 0` the ratio is the NaN of `0/0` instead). -/
theorem calculateIndicators_flat (rows : List Row) (c v : ℚ)
    (hc : ∀ r ∈ rows, r.close = c) (hv : ∀ r ∈ rows, r.volume = v) :
    (∀ s ∈ calculateIndicators rows,
        s.ma5 = c ∧ s.ma20 = c ∧ s.ma60 = c ∧ s.macd = 0 ∧ s.signal = 0 ∧
        s.rsi = FVal.nan) ∧
    (v ≠ 0 → ∀ s ∈ calculateIndicators rows, ∀ m, s.volumeMA = some m →
        s.volumeRatio = FVal.fin 1) := by
  have hcl : rows.map Row.close = List.replicate rows.length c := by
    have h1 : ∀ b ∈ rows.map Row.close, b = c := by
      intro b hb
      obtain ⟨r, hr, rfl⟩ := List.mem_map.mp hb
      exact hc r hr
    have h2 := List.eq_replicate_of_mem h1
    rwa [List.length_map] at h2
  have hvl : rows.map Row.volume = List.replicate rows.length v := by
    have h1 : ∀ b ∈ rows.map Row.volume, b = v := by
      intro b hb
      obtain ⟨r, hr, rfl⟩ := List.mem_map.mp hb
      exact hv r hr
    have h2 := List.eq_replicate_of_mem h1
    rwa [List.length_map] at h2
  constructor
  · intro s hs
    simp only [calculateIndicators, List.mem_map] at hs
    obtain ⟨t, ht, rfl⟩ := hs
    rw [List.mem_range] at ht
    refine ⟨?_, ?_, ?_, ?_, ?_, ?_⟩
    · show (calculateEma (rows.map Row.close) 5).getD t 0 = c
      rw [hcl]
      unfold calculateEma
      rw [ewmMean_const]
      exact getD_replicate_of_lt _ _ ht
    · show (calculateEma (rows.map Row.close) 20).getD t 0 = c
      rw [hcl]
      unfold calculateEma
      rw [ewmMean_const]
      exact getD_replicate_of_lt _ _ ht
    · show (calculateEma (rows.map Row.close) 60).getD t 0 = c
      rw [hcl]
      unfold calculateEma
      rw [ewmMean_const]
      exact getD_replicate_of_lt _ _ ht
    · show (calculateMacd (rows.map Row.close)).1.getD t 0 = 0
      rw [hcl, (calculateMacd_const c rows.length).1]
      exact getD_replicate_of_lt _ _ ht
    · show (calculateMacd (rows.map Row.close)).2.1.getD t 0 = 0
      rw [hcl, (calculateMacd_const c rows.length).2]
      exact getD_replicate_of_lt _ _ ht
    · show (calculateRsi (rows.map Row.close) 14).getD t .nan = .nan
      rw [hcl, calculateRsi_const c _ 14 (by norm_num), getD_map_range _ _ ht]
  · intro hv0 s hs m hm
    simp only [calculateIndicators, List.mem_map] at hs
    obtain ⟨t, ht, rfl⟩ := hs
    rw [List.mem_range] at ht
    have hm' : (if t + 1 < 20 then none else some v) = some m := by
      have hma : Snapshot.volumeMA
          { date := (rows.getD t default).date
            close := (rows.map Row.close).getD t 0
            ma5 := (calculateEma (rows.map Row.close) 5).getD t 0
            ma20 := (calculateEma (rows.map Row.close) 20).getD t 0
            ma60 := (calculateEma (rows.map Row.close) 60).getD t 0
            rsi := (calculateRsi (rows.map Row.close) 14).getD t .nan
            macd := (calculateMacd (rows.map Row.close)).1.getD t 0
            signal := (calculateMacd (rows.map Row.close)).2.1.getD t 0
            volumeMA := (rollingMean 20 (rows.map Row.volume)).getD t none
            volumeRatio := (List.zipWith volumeRatioCell (rows.map Row.volume)
              (rollingMean 20 (rows.map Row.volume))).getD t .nan
            atr := (calculateAtr rows 14).getD t none } =
          (rollingMean 20 (rows.map Row.volume)).getD t none := rfl
      rw [hma] at hm
      rwa [hvl, rollingMean_replicate 20 _ (by norm_num) v, getD_map_range _ _ ht] at hm
    by_cases h20 : t + 1 < 20
    · rw [if_pos h20] at hm'
      exact absurd hm' (by simp)
    · show (List.zipWith volumeRatioCell (rows.map Row.volume)
          (rollingMean 20 (rows.map Row.volume))).getD t .nan = FVal.fin 1
      have hz : (List.zipWith volumeRatioCell (rows.map Row.volume)
          (rollingMean 20 (rows.map Row.volume)))[t]? =
            some (volumeRatioCell v (some v)) := by
        rw [List.getElem?_zipWith]
        rw [hvl, rollingMean_replicate 20 _ (by norm_num) v, List.getElem?_replicate,
          if_pos ht, List.getElem?_map, List.getElem?_range ht]
        simp [h20]
      rw [List.getD_eq_getElem?_getD, hz]
      simp [volumeRatioCell, hv0]

/-- Witness for C8 on the 21-bar flat series `flatPos` (close 2,
volume 3). -/
theorem calculateIndicators_flat_witness :
    (∀ s ∈ calculateIndicators flatPos,
        s.ma5 = 2 ∧ s.ma20 = 2 ∧ s.ma60 = 2 ∧ s.macd = 0 ∧ s.signal = 0 ∧
        s.rsi = FVal.nan) ∧
    ((3 : ℚ) ≠ 0 → ∀ s ∈ calculateIndicators flatPos, ∀ m, s.volumeMA = some m →
        s.volumeRatio = FVal.fin 1) :=
  calculateIndicators_flat flatPos 2 3
    (fun r hr => by
      have hr' : r ∈ List.replicate 21 flatRowPos := by simpa [flatPos] using hr
      rw [List.eq_of_mem_replicate hr']
      rfl)
    (fun r hr => by
      have hr' : r ∈ List.replicate 21 flatRowPos := by simpa [flatPos] using hr
      rw [List.eq_of_mem_replicate hr']
      rfl)

/-- C8 counterexample: in the flat 20-bar series with constant close 1 and
constant volume 0, the last bar's volume moving average is defined
(`some 0`) while its volume ratio is the NaN of `0/0`, not `1`. -/
theorem flat_zero_volume_ratio_counterexample :
    ((calculateIndicators flatZeroVol).getD 19 default).volumeMA = some 0 ∧
    ((calculateIndicators flatZeroVol).getD 19 default).volumeRatio = FVal.nan ∧
    FVal.nan ≠ FVal.fin 1 := by
  have hlen : flatZeroVol.length = 20 := by simp [flatZeroVol]
  have hmapv : flatZeroVol.map Row.volume = List.replicate 20 0 := by
    simp [flatZeroVol, flatRowZeroVol]
  have h19 : (19 : ℕ) < 20 := by norm_num
  have hrm : rollingMean 20 (flatZeroVol.map Row.volume) =
      (List.range 20).map fun t => if t + 1 < 20 then none else some (0 : ℚ) := by
    rw [hmapv, rollingMean_replicate 20 20 (by norm_num) 0]
  refine ⟨?_, ?_, by simp⟩
  · show ((calculateIndicators flatZeroVol).getD 19 default).volumeMA = some 0
    simp only [calculateIndicators, hlen]
    rw [getD_map_range _ _ h19]
    show (rollingMean 20 (flatZeroVol.map Row.volume)).getD 19 none = some 0
    rw [hrm, getD_map_range _ _ h19]
    norm_num
  · simp only [calculateIndicators, hlen]
    rw [getD_map_range _ _ h19]
    show (List.zipWith volumeRatioCell (flatZeroVol.map Row.volume)
        (rollingMean 20 (flatZeroVol.map Row.volume))).getD 19 .nan = FVal.nan
    have hz : (List.zipWith volumeRatioCell (flatZeroVol.map Row.volume)
        (rollingMean 20 (flatZeroVol.map Row.volume)))[19]? =
          some (volumeRatioCell 0 (some 0)) := by
      rw [List.getElem?_zipWith, hmapv, rollingMean_replicate 20 20 (by norm_num) 0,
        List.getElem?_replicate, if_pos h19, List.getElem?_map, List.getElem?_range h19]
      norm_num
    rw [List.getD_eq_getElem?_getD, hz]
    simp [volumeRatioCell]
